import Mathlib

/-!
Verification of the pill overlay's interaction/content state engine.

The definitions below are a shallow embedding of the TypeScript sources:
  * src/types/pill.ts            (content-state data model, priorities)
  * src/hooks/usePillState.ts    (content registry + interaction state machine)
  * src/hooks/useNotifications.ts (notification choreographer)
  * the NotificationToast component (safety/phase timeouts)

JavaScript runtime records are modelled as association lists of JsValue;
Date.now / Math.random derived ids and timestamps are passed in as
parameters (they are environment inputs).  Timers are modelled by absolute
fire times together with a millisecond tick function that fires due timers.
-/

namespace Pillar

/-- A JavaScript runtime value, restricted to the shapes the pill code
stores in content-state payloads. -/
inductive JsValue where
  | str (s : String)
  | num (n : Int)
  | boolean (b : Bool)
  | nullV
deriving Repr, DecidableEq

/-- A JavaScript object record (string-keyed). -/
abbrev Rec : Type := List (String × JsValue)

/-- JavaScript object spread merge: keys of the first record in order with
values overridden by the second, then the second record's new keys. -/
def mergeRecord (a b : Rec) : Rec :=
  (a.map (fun kv =>
    match b.lookup kv.1 with
    | some v => (kv.1, v)
    | none => kv)) ++
  b.filter (fun kv => (a.lookup kv.1).isNone)

/-- ContentStateType from src/types/pill.ts. -/
inductive ContentStateType where
  | idle
  | timer_running
  | timer_alert
  | media
  | notification
deriving Repr, DecidableEq

/-- STATE_PRIORITY.IDLE from src/types/pill.ts. -/
def STATE_PRIORITY_IDLE : Int := 0

/-- STATE_PRIORITY.TIMER_RUNNING from src/types/pill.ts. -/
def STATE_PRIORITY_TIMER_RUNNING : Int := 10

/-- STATE_PRIORITY.NOTIFICATION from src/types/pill.ts. -/
def STATE_PRIORITY_NOTIFICATION : Int := 20

/-- STATE_PRIORITY.MEDIA_ACTIVE from src/types/pill.ts. -/
def STATE_PRIORITY_MEDIA_ACTIVE : Int := 30

/-- STATE_PRIORITY.TIMER_ALERT from src/types/pill.ts. -/
def STATE_PRIORITY_TIMER_ALERT : Int := 40

/-- The priorities map inside createContentState (src/types/pill.ts). -/
def priorities : ContentStateType → Int
  | .idle => STATE_PRIORITY_IDLE
  | .timer_running => STATE_PRIORITY_TIMER_RUNNING
  | .timer_alert => STATE_PRIORITY_TIMER_ALERT
  | .media => STATE_PRIORITY_MEDIA_ACTIVE
  | .notification => STATE_PRIORITY_NOTIFICATION

/-- A content state (src/types/pill.ts).  The per-variant data payloads are
dynamic records at runtime; idle states carry no data. -/
structure ContentState where
  id : String
  type : ContentStateType
  priority : Int
  timestamp : Int
  data : Option Rec
deriving Repr, DecidableEq

/-- createContentState from src/types/pill.ts.  The generated id and the
Date.now timestamp are environment inputs and passed as parameters; the
priority is the fixed per-type mapping. -/
def createContentState (type : ContentStateType) (data : Option Rec)
    (id : String) (timestamp : Int) : ContentState :=
  { id := id, type := type, priority := priorities type,
    timestamp := timestamp, data := data }

/-- The sort order in addContentState: (a, b) => b.priority - a.priority,
i.e. a stays before b when b.priority ≤ a.priority (descending). -/
def PriorityGE (a b : ContentState) : Prop :=
  b.priority ≤ a.priority

instance : DecidableRel PriorityGE :=
  fun a b => Int.decLe b.priority a.priority

instance : IsTotal ContentState PriorityGE :=
  ⟨fun a b => Int.le_total b.priority a.priority⟩

instance : IsTrans ContentState PriorityGE :=
  ⟨fun _ _ _ hab hbc => le_trans hbc hab⟩

/-- addContentState from src/hooks/usePillState.ts (lines 119-127):
non-notification types first evict existing entries of the same type, then
the new state is appended and the list re-sorted by descending priority.
JavaScript Array.prototype.sort is a stable sort, and a stable sort with
respect to a fixed total preorder has a unique result, so it is modelled by
insertion sort with PriorityGE (which places each element after all
earlier elements of greater-or-equal priority, preserving insertion
order among equal priorities exactly as a stable sort does). -/
def addContentState (state : ContentState) (prev : List ContentState) :
    List ContentState :=
  let filtered :=
    if state.type = ContentStateType.notification then prev
    else prev.filter (fun s => !(s.type = state.type : Bool))
  List.insertionSort PriorityGE (filtered ++ [state])

/-- removeContentState from src/hooks/usePillState.ts (lines 129-131). -/
def removeContentState (id : String) (prev : List ContentState) :
    List ContentState :=
  prev.filter (fun s => !(s.id = id : Bool))

/-- updateContentState from src/hooks/usePillState.ts (lines 133-144):
merge the partial payload into the matching entry's data; entries without
data are left alone. -/
def updateContentState (id : String) (updates : Rec)
    (prev : List ContentState) : List ContentState :=
  prev.map (fun s =>
    if s.id = id then
      match s.data with
      | some d => { s with data := some (mergeRecord d updates) }
      | none => s
    else s)

/-- clearContentStates from src/hooks/usePillState.ts (lines 146-152). -/
def clearContentStates (type? : Option ContentStateType)
    (prev : List ContentState) : List ContentState :=
  match type? with
  | some t => prev.filter (fun s => !(s.type = t : Bool))
  | none => []

/-- setTimerState from src/hooks/usePillState.ts (lines 158-165). -/
def setTimerState (timer : Option Rec) (id : String) (timestamp : Int)
    (prev : List ContentState) : List ContentState :=
  match timer with
  | none => prev.filter (fun s => !(s.type = ContentStateType.timer_running : Bool))
  | some d =>
      addContentState (createContentState .timer_running (some d) id timestamp) prev

/-- setTimerAlert from src/hooks/usePillState.ts (lines 167-174). -/
def setTimerAlert (alert : Option Rec) (id : String) (timestamp : Int)
    (prev : List ContentState) : List ContentState :=
  match alert with
  | none => prev.filter (fun s => !(s.type = ContentStateType.timer_alert : Bool))
  | some d =>
      addContentState (createContentState .timer_alert (some d) id timestamp) prev

/-- setMediaState from src/hooks/usePillState.ts (lines 176-183). -/
def setMediaState (media : Option Rec) (id : String) (timestamp : Int)
    (prev : List ContentState) : List ContentState :=
  match media with
  | none => prev.filter (fun s => !(s.type = ContentStateType.media : Bool))
  | some d =>
      addContentState (createContentState .media (some d) id timestamp) prev

/-- NOTIFICATION_DURATION_MS from src/hooks/usePillState.ts. -/
def NOTIFICATION_DURATION_MS : Int := 5000

/-- The synchronous part of showNotification from src/hooks/usePillState.ts
(lines 185-198): stamp an expiresAt field and insert via addContentState.
The delayed auto-removal is a later removeContentState of the same id. -/
def showNotification (payload : Rec) (id : String) (timestamp : Int)
    (now : Int) (prev : List ContentState) : List ContentState :=
  addContentState
    (createContentState .notification
      (some (mergeRecord payload [("expiresAt", JsValue.num (now + NOTIFICATION_DURATION_MS))]))
      id timestamp) prev

/-- activeContentState derivation (src/hooks/usePillState.ts lines 204-211):
head of the sorted list, or null when empty. -/
def activeContentState (l : List ContentState) : Option ContentState :=
  l.head?

/-- backgroundStates derivation (src/hooks/usePillState.ts lines 204-211):
everything after the head. -/
def backgroundStates (l : List ContentState) : List ContentState :=
  l.tail

/-- One registry mutation, covering every operation exposed by the hook.
Environment-chosen ids, timestamps and clock readings ride along. -/
inductive RegOp where
  | add (state : ContentState)
  | remove (id : String)
  | update (id : String) (updates : Rec)
  | clear (type? : Option ContentStateType)
  | setTimer (timer : Option Rec) (id : String) (timestamp : Int)
  | setAlert (alert : Option Rec) (id : String) (timestamp : Int)
  | setMedia (media : Option Rec) (id : String) (timestamp : Int)
  | showNotif (payload : Rec) (id : String) (timestamp : Int) (now : Int)

/-- Interpret one registry operation. -/
def applyOp (op : RegOp) (l : List ContentState) : List ContentState :=
  match op with
  | .add s => addContentState s l
  | .remove id => removeContentState id l
  | .update id u => updateContentState id u l
  | .clear t => clearContentStates t l
  | .setTimer t id ts => setTimerState t id ts l
  | .setAlert a id ts => setTimerAlert a id ts l
  | .setMedia m id ts => setMediaState m id ts l
  | .showNotif p id ts now => showNotification p id ts now l

/-- Interpret a sequence of registry operations from the left. -/
def applyOps (ops : List RegOp) (l : List ContentState) : List ContentState :=
  ops.foldl (fun acc op => applyOp op acc) l

/-- The registry list is sorted by descending priority. -/
def SortedDesc (l : List ContentState) : Prop :=
  l.Pairwise (fun a b => b.priority ≤ a.priority)

lemma sortedDesc_sort (l : List ContentState) :
    SortedDesc (List.insertionSort PriorityGE l) :=
  List.sorted_insertionSort PriorityGE l

lemma updateFn_priority (id : String) (u : Rec) (s : ContentState) :
    (if s.id = id then
        match s.data with
        | some d => { s with data := some (mergeRecord d u) }
        | none => s
      else s).priority = s.priority := by
  split
  · split <;> rfl
  · rfl

lemma sortedDesc_updateContentState (id : String) (u : Rec)
    (l : List ContentState) (h : SortedDesc l) :
    SortedDesc (updateContentState id u l) := by
  unfold updateContentState SortedDesc
  rw [List.pairwise_map]
  exact h.imp (fun hab => by
    rw [updateFn_priority, updateFn_priority]; exact hab)

lemma sortedDesc_applyOp (op : RegOp) (l : List ContentState)
    (h : SortedDesc l) : SortedDesc (applyOp op l) := by
  cases op with
  | add s =>
      simp only [applyOp, addContentState]
      exact sortedDesc_sort _
  | remove id =>
      exact h.sublist (List.filter_sublist _)
  | update id u =>
      exact sortedDesc_updateContentState id u l h
  | clear t =>
      cases t with
      | none => exact List.Pairwise.nil
      | some t => exact h.sublist (List.filter_sublist _)
  | setTimer t id ts =>
      cases t with
      | none => exact h.sublist (List.filter_sublist _)
      | some d =>
          simp only [applyOp, setTimerState, addContentState]
          exact sortedDesc_sort _
  | setAlert a id ts =>
      cases a with
      | none => exact h.sublist (List.filter_sublist _)
      | some d =>
          simp only [applyOp, setTimerAlert, addContentState]
          exact sortedDesc_sort _
  | setMedia m id ts =>
      cases m with
      | none => exact h.sublist (List.filter_sublist _)
      | some d =>
          simp only [applyOp, setMediaState, addContentState]
          exact sortedDesc_sort _
  | showNotif p id ts now =>
      simp only [applyOp, showNotification, addContentState]
      exact sortedDesc_sort _

lemma sortedDesc_applyOps (ops : List RegOp) (l : List ContentState)
    (h : SortedDesc l) : SortedDesc (applyOps ops l) := by
  induction ops generalizing l with
  | nil => exact h
  | cons op rest ih => exact ih _ (sortedDesc_applyOp op l h)

lemma sortedDesc_head_max (l : List ContentState) (h : SortedDesc l)
    (a : ContentState) (ha : l.head? = some a) :
    ∀ s ∈ l, s.priority ≤ a.priority := by
  cases l with
  | nil => cases ha
  | cons x xs =>
      have hx : a = x := by
        simp only [List.head?_cons, Option.some.injEq] at ha
        exact ha.symm
      subst hx
      intro s hs
      rcases List.mem_cons.mp hs with rfl | hs
      · exact le_refl _
      · exact (List.rel_of_pairwise_cons h hs)

/-- C1: starting from the empty registry, after any sequence of registry
operations the content-state list is sorted in descending priority order;
the derived active value is none exactly when the registry is empty and
otherwise is a present entry of maximum priority; background is the
remainder of the sorted list. -/
theorem registry_sorted_active_max (ops : List RegOp) :
    SortedDesc (applyOps ops []) ∧
    (activeContentState (applyOps ops []) = none ↔ applyOps ops [] = []) ∧
    (∀ a, activeContentState (applyOps ops []) = some a →
      a ∈ applyOps ops [] ∧
      ∀ s ∈ applyOps ops [], s.priority ≤ a.priority) ∧
    backgroundStates (applyOps ops []) = (applyOps ops []).tail := by
  have hs : SortedDesc (applyOps ops []) :=
    sortedDesc_applyOps ops [] List.Pairwise.nil
  refine ⟨hs, ?_, ?_, rfl⟩
  · exact List.head?_eq_none_iff
  · intro a ha
    exact ⟨List.mem_of_mem_head? ha, sortedDesc_head_max _ hs a ha⟩

/-- Closed instance of registry_sorted_active_max: two typed-setter
operations, with the media entry as the computed active maximum. -/
theorem registry_sorted_active_max_witness :
    SortedDesc (applyOps
      [RegOp.setTimer (some [("label", JsValue.str "Focus")]) "t1" 0,
       RegOp.setMedia (some [("isPlaying", JsValue.boolean true)]) "m1" 1] []) ∧
    (createContentState .media (some [("isPlaying", JsValue.boolean true)]) "m1" 1) ∈
      (applyOps
        [RegOp.setTimer (some [("label", JsValue.str "Focus")]) "t1" 0,
         RegOp.setMedia (some [("isPlaying", JsValue.boolean true)]) "m1" 1] []) ∧
    ∀ s ∈ (applyOps
        [RegOp.setTimer (some [("label", JsValue.str "Focus")]) "t1" 0,
         RegOp.setMedia (some [("isPlaying", JsValue.boolean true)]) "m1" 1] []),
      s.priority ≤ (createContentState .media
        (some [("isPlaying", JsValue.boolean true)]) "m1" 1).priority := by
  have h := registry_sorted_active_max
    [RegOp.setTimer (some [("label", JsValue.str "Focus")]) "t1" 0,
     RegOp.setMedia (some [("isPlaying", JsValue.boolean true)]) "m1" 1]
  have h2 := h.2.2.1
    (createContentState .media (some [("isPlaying", JsValue.boolean true)]) "m1" 1)
    (by decide)
  exact ⟨h.1, h2.1, h2.2⟩

/-- C2: adding a non-notification state first evicts every existing entry
of the same type and then inserts the new state (so afterwards the new
state is the unique entry of its type), while adding a notification keeps
every existing entry, so notification entries stack. -/
theorem addContentState_evict_and_stack (s : ContentState)
    (l : List ContentState) :
    (s.type ≠ ContentStateType.notification →
      (addContentState s l).Perm
        (l.filter (fun x => !(x.type = s.type : Bool)) ++ [s]) ∧
      (addContentState s l).countP (fun x => (x.type = s.type : Bool)) = 1 ∧
      ∀ x ∈ addContentState s l, x.type = s.type → x = s) ∧
    (s.type = ContentStateType.notification →
      (addContentState s l).Perm (l ++ [s]) ∧
      (addContentState s l).countP
          (fun x => (x.type = ContentStateType.notification : Bool)) =
        l.countP (fun x => (x.type = ContentStateType.notification : Bool)) + 1 ∧
      ∀ x ∈ l, x ∈ addContentState s l) := by
  constructor
  · intro h
    have hperm : (addContentState s l).Perm
        (l.filter (fun x => !(x.type = s.type : Bool)) ++ [s]) := by
      simp only [addContentState, if_neg h]
      exact List.perm_insertionSort _ _
    refine ⟨hperm, ?_, ?_⟩
    · rw [hperm.countP_eq]
      simp [List.countP_append, List.countP_filter, List.countP_cons,
        Bool.and_not_self]
    · intro x hx hxt
      rcases List.mem_append.mp (hperm.mem_iff.mp hx) with hf | hsingle
      · have := List.of_mem_filter hf
        simp [hxt] at this
      · simpa using hsingle
  · intro h
    have hperm : (addContentState s l).Perm (l ++ [s]) := by
      simp only [addContentState, if_pos h]
      exact List.perm_insertionSort _ _
    refine ⟨hperm, ?_, ?_⟩
    · rw [hperm.countP_eq]
      simp [List.countP_append, List.countP_cons, h]
    · intro x hx
      exact hperm.mem_iff.mpr (List.mem_append.mpr (Or.inl hx))

/-- Closed instance of addContentState_evict_and_stack: a media entry
evicts an older media entry, and a second notification keeps the first. -/
theorem addContentState_evict_and_stack_witness :
    (addContentState
        (createContentState .media (some [("isPlaying", JsValue.boolean true)]) "m2" 5)
        [createContentState .media (some [("isPlaying", JsValue.boolean false)]) "m1" 1]).countP
      (fun x => (x.type = ContentStateType.media : Bool)) = 1 ∧
    (createContentState .notification (some []) "n1" 1) ∈
      addContentState (createContentState .notification (some []) "n2" 5)
        [createContentState .notification (some []) "n1" 1] := by
  refine ⟨?_, ?_⟩
  · exact ((addContentState_evict_and_stack
      (createContentState .media (some [("isPlaying", JsValue.boolean true)]) "m2" 5)
      [createContentState .media (some [("isPlaying", JsValue.boolean false)]) "m1" 1]).1
      (by decide)).2.1
  · exact (((addContentState_evict_and_stack
      (createContentState .notification (some []) "n2" 5)
      [createContentState .notification (some []) "n1" 1]).2
      (by decide)).2.2 _ (by decide))

/-- The timer payload of the C8 scenario. -/
def focusTimerData : Rec :=
  [("label", JsValue.str "Focus"), ("totalSeconds", JsValue.num 1500),
   ("remainingSeconds", JsValue.num 1500), ("isPaused", JsValue.boolean false)]

/-- The media payload of the C8 scenario. -/
def playingMediaData : Rec :=
  [("title", JsValue.str "Track"), ("artist", JsValue.str "Artist"),
   ("isPlaying", JsValue.boolean true)]

/-- The timer entry created by the C8 scenario. -/
def scenarioTimerEntry : ContentState :=
  createContentState .timer_running (some focusTimerData) "timer-1" 100

/-- Registry after setTimerState on the empty registry. -/
def scenarioL1 : List ContentState :=
  setTimerState (some focusTimerData) "timer-1" 100 []

/-- Registry after the subsequent setMediaState. -/
def scenarioL2 : List ContentState :=
  setMediaState (some playingMediaData) "media-1" 200 scenarioL1

/-- C8: every created content state carries the fixed per-type priority
(Idle=0, TimerRunning=10, Notification=20, Media=30, TimerAlert=40); on an
empty registry setTimerState makes the timer entry active, and a
subsequent setMediaState makes the media entry active with the timer
entry in background. -/
theorem priority_mapping_and_timer_media_scenario :
    (∀ (t : ContentStateType) (d : Option Rec) (id : String) (ts : Int),
      (createContentState t d id ts).priority = priorities t) ∧
    priorities .idle = 0 ∧ priorities .timer_running = 10 ∧
    priorities .notification = 20 ∧ priorities .media = 30 ∧
    priorities .timer_alert = 40 ∧
    (activeContentState scenarioL1).map ContentState.type =
      some ContentStateType.timer_running ∧
    (activeContentState scenarioL2).map ContentState.type =
      some ContentStateType.media ∧
    scenarioTimerEntry ∈ backgroundStates scenarioL2 := by
  refine ⟨fun t d id ts => rfl, rfl, rfl, rfl, rfl, rfl, ?_, ?_, ?_⟩ <;> decide

/-- InteractionState from src/types/pill.ts. -/
inductive InteractionState where
  | boot
  | idle
  | hover
  | expanded
deriving Repr, DecidableEq

/-- HOVER_DELAY_MS from src/hooks/usePillState.ts. -/
def HOVER_DELAY_MS : Nat := 100

/-- EXIT_DELAY_MS from src/hooks/usePillState.ts. -/
def EXIT_DELAY_MS : Nat := 120

/-- The interaction half of the pill hook: the current interaction state
(read through interactionStateRef by every callback), the hover and exit
timer refs modelled as absolute fire times in milliseconds, and the
current clock. -/
structure PillM where
  interactionState : InteractionState
  hoverTimeout : Option Nat
  exitTimeout : Option Nat
  now : Nat
deriving Repr, DecidableEq

/-- handleMouseEnter from src/hooks/usePillState.ts (lines 236-254):
returns immediately in boot; clears any pending exit timer; returns in
expanded; otherwise (re)starts the 100ms hover-activation timer. -/
def handleMouseEnter (m : PillM) : PillM :=
  if m.interactionState = InteractionState.boot then m
  else
    let m1 := { m with exitTimeout := none }
    if m1.interactionState = InteractionState.expanded then m1
    else { m1 with hoverTimeout := some (m1.now + HOVER_DELAY_MS) }

/-- The hover-activation timer callback (lines 248-253): reads the current
state through the ref and promotes idle to hover only; the fired timer is
spent. -/
def fireHoverTimeout (m : PillM) : PillM :=
  { m with
    hoverTimeout := none,
    interactionState :=
      if m.interactionState = InteractionState.idle then InteractionState.hover
      else m.interactionState }

/-- handleMouseLeave from src/hooks/usePillState.ts (lines 256-274):
always cancels the pending hover timer; from hover or expanded it starts
an exit timer of 120ms or 3 times 120ms respectively. -/
def handleMouseLeave (m : PillM) : PillM :=
  let m1 := { m with hoverTimeout := none }
  if m1.interactionState = InteractionState.hover ∨
      m1.interactionState = InteractionState.expanded then
    let delay :=
      if m1.interactionState = InteractionState.expanded then EXIT_DELAY_MS * 3
      else EXIT_DELAY_MS
    { m1 with exitTimeout := some (m1.now + delay) }
  else m1

/-- The exit timer callback (lines 267-272): collapses to idle only if the
state at fire time is still hover or expanded; the fired timer is spent. -/
def fireExitTimeout (m : PillM) : PillM :=
  { m with
    exitTimeout := none,
    interactionState :=
      if m.interactionState = InteractionState.hover ∨
          m.interactionState = InteractionState.expanded
      then InteractionState.idle
      else m.interactionState }

/-- handleClick from src/hooks/usePillState.ts (lines 276-280). -/
def handleClick (m : PillM) : PillM :=
  if m.interactionState = InteractionState.hover then
    { m with interactionState := InteractionState.expanded }
  else m

/-- handleClickOutside from src/hooks/usePillState.ts (lines 282-286). -/
def handleClickOutside (m : PillM) : PillM :=
  if m.interactionState = InteractionState.expanded then
    { m with interactionState := InteractionState.idle }
  else m

/-- completeBootAnimation from src/hooks/usePillState.ts (lines 232-234). -/
def completeBootAnimation (m : PillM) : PillM :=
  { m with interactionState := InteractionState.idle }

/-- Advance the clock one millisecond and fire any due timer callback (the
hover timer first, then the exit timer; the handlers never leave both
pending at once in reachable states). -/
def tickPill (m : PillM) : PillM :=
  let m1 := { m with now := m.now + 1 }
  let m2 :=
    match m1.hoverTimeout with
    | some t => if t ≤ m1.now then fireHoverTimeout m1 else m1
    | none => m1
  match m2.exitTimeout with
  | some t => if t ≤ m2.now then fireExitTimeout m2 else m2
  | none => m2

/-- One synchronous input into the interaction state machine. -/
inductive PillEvent where
  | mouseEnter
  | mouseLeave
  | click
  | clickOutside
  | completeBoot

/-- Interpret one synchronous input. -/
def applyPillEvent (m : PillM) (e : PillEvent) : PillM :=
  match e with
  | .mouseEnter => handleMouseEnter m
  | .mouseLeave => handleMouseLeave m
  | .click => handleClick m
  | .clickOutside => handleClickOutside m
  | .completeBoot => completeBootAnimation m

/-- An expanded-state pill with a pending exit timer. -/
def pointerEnterExpandedExample : PillM :=
  { interactionState := InteractionState.expanded, hoverTimeout := none,
    exitTimeout := some 360, now := 50 }

/-- A booting pill with a pending exit timer slot. -/
def pillBootExample : PillM :=
  { interactionState := InteractionState.boot, hoverTimeout := none,
    exitTimeout := some 20, now := 0 }

/-- An idle pill with no pending timers. -/
def pillIdleExample : PillM :=
  { interactionState := InteractionState.idle, hoverTimeout := none,
    exitTimeout := none, now := 0 }

/-- C4 counterexample: in the expanded state with a pending exit timer,
pointerEnter is not a no-op on timers: it cancels the pending exit timer,
so the exit timer does not remain scheduled. -/
theorem pointerEnter_expanded_cancels_exit :
    pointerEnterExpandedExample.interactionState = InteractionState.expanded ∧
    pointerEnterExpandedExample.exitTimeout = some 360 ∧
    (handleMouseEnter pointerEnterExpandedExample).exitTimeout = none := by
  decide

/-- C4 (amended): pointerEnter is a full no-op only in boot; in expanded
it cancels any pending exit timer but changes neither the interaction
state nor the hover timer and starts no new timer; in every other state
it cancels the exit timer and (re)starts the 100ms hover timer. -/
theorem pointerEnter_boot_expanded_behavior (m : PillM) :
    (m.interactionState = InteractionState.boot → handleMouseEnter m = m) ∧
    (m.interactionState = InteractionState.expanded →
      (handleMouseEnter m).interactionState = m.interactionState ∧
      (handleMouseEnter m).hoverTimeout = m.hoverTimeout ∧
      (handleMouseEnter m).exitTimeout = none) ∧
    (m.interactionState ≠ InteractionState.boot →
      m.interactionState ≠ InteractionState.expanded →
      handleMouseEnter m =
        { m with exitTimeout := none,
                 hoverTimeout := some (m.now + HOVER_DELAY_MS) }) := by
  refine ⟨?_, ?_, ?_⟩
  · intro h
    simp [handleMouseEnter, h]
  · intro h
    simp [handleMouseEnter, h]
  · intro h1 h2
    simp [handleMouseEnter, h1, h2]

/-- Closed instance of pointerEnter_boot_expanded_behavior at boot,
expanded and idle states. -/
theorem pointerEnter_boot_expanded_behavior_witness :
    handleMouseEnter pillBootExample = pillBootExample ∧
    (handleMouseEnter pointerEnterExpandedExample).exitTimeout = none ∧
    handleMouseEnter pillIdleExample =
      { pillIdleExample with
          exitTimeout := none,
          hoverTimeout := some (pillIdleExample.now + HOVER_DELAY_MS) } := by
  refine ⟨(pointerEnter_boot_expanded_behavior pillBootExample).1 (by decide),
    ((pointerEnter_boot_expanded_behavior pointerEnterExpandedExample).2.1
      (by decide)).2.2,
    (pointerEnter_boot_expanded_behavior pillIdleExample).2.2
      (by decide) (by decide)⟩

/-- C5: after pointerEnter and any interleaved synchronous transitions,
when the hover-activation timer fires it reads the state current at fire
time: it promotes to hover when that state is idle and performs no
transition otherwise. -/
theorem hoverTimer_late_binding (m0 : PillM) (evs : List PillEvent) :
    ((evs.foldl applyPillEvent (handleMouseEnter m0)).hoverTimeout).isSome = true →
    ((evs.foldl applyPillEvent (handleMouseEnter m0)).interactionState =
        InteractionState.idle →
      (fireHoverTimeout
        (evs.foldl applyPillEvent (handleMouseEnter m0))).interactionState =
        InteractionState.hover) ∧
    ((evs.foldl applyPillEvent (handleMouseEnter m0)).interactionState ≠
        InteractionState.idle →
      (fireHoverTimeout
        (evs.foldl applyPillEvent (handleMouseEnter m0))).interactionState =
        (evs.foldl applyPillEvent (handleMouseEnter m0)).interactionState) := by
  intro _
  constructor
  · intro h
    simp [fireHoverTimeout, h]
  · intro h
    simp [fireHoverTimeout, h]

/-- A hovering pill with no pending timers. -/
def pillHoverExample : PillM :=
  { interactionState := InteractionState.hover, hoverTimeout := none,
    exitTimeout := none, now := 0 }

/-- Closed instance of hoverTimer_late_binding: the user clicks to
expanded while the hover timer is pending; the fired timer performs no
transition. -/
theorem hoverTimer_late_binding_witness :
    ((([PillEvent.click]).foldl applyPillEvent
        (handleMouseEnter pillHoverExample)).hoverTimeout).isSome = true ∧
    (fireHoverTimeout
        (([PillEvent.click]).foldl applyPillEvent
          (handleMouseEnter pillHoverExample))).interactionState =
      (([PillEvent.click]).foldl applyPillEvent
        (handleMouseEnter pillHoverExample)).interactionState := by
  refine ⟨by decide, ?_⟩
  exact (hoverTimer_late_binding pillHoverExample [PillEvent.click]
    (by decide)).2 (by decide)

lemma tickPill_idle_pending (T : Nat) (k : Nat) :
    ∀ n, n + k < T →
    tickPill^[k] (⟨InteractionState.idle, some T, none, n⟩ : PillM) =
      (⟨InteractionState.idle, some T, none, n + k⟩ : PillM) := by
  induction k with
  | zero => intro n _; simp
  | succ k ih =>
      intro n h
      rw [Function.iterate_succ_apply]
      have hlt : ¬ (T ≤ n + 1) := by omega
      have hstep : tickPill (⟨InteractionState.idle, some T, none, n⟩ : PillM) =
          (⟨InteractionState.idle, some T, none, n + 1⟩ : PillM) := by
        simp [tickPill, hlt]
      rw [hstep, show n + (k + 1) = (n + 1) + k by omega]
      exact ih (n + 1) (by omega)

lemma tickPill_quiescent (s : InteractionState) (k : Nat) :
    ∀ n, tickPill^[k] (⟨s, none, none, n⟩ : PillM) =
      (⟨s, none, none, n + k⟩ : PillM) := by
  induction k with
  | zero => intro n; simp
  | succ k ih =>
      intro n
      rw [Function.iterate_succ_apply]
      have hstep : tickPill (⟨s, none, none, n⟩ : PillM) =
          (⟨s, none, none, n + 1⟩ : PillM) := by
        simp [tickPill]
      rw [hstep, show n + (k + 1) = (n + 1) + k by omega]
      exact ih (n + 1)

/-- C6: from idle with no pending timers, pointerEnter followed by
pointerLeave after fewer than HOVER_DELAY_MS milliseconds never produces
the idle-to-hover transition: the state is idle at every later time
absent further input. -/
theorem enter_leave_within_delay_stays_idle (m0 : PillM)
    (hstate : m0.interactionState = InteractionState.idle)
    (hh : m0.hoverTimeout = none) (he : m0.exitTimeout = none)
    (d : Nat) (hd : d < HOVER_DELAY_MS) (t : Nat) :
    (tickPill^[t] (handleMouseLeave
        (tickPill^[d] (handleMouseEnter m0)))).interactionState =
      InteractionState.idle := by
  obtain ⟨st, hov, ext, n⟩ := m0
  simp only at hstate hh he
  subst hstate hh he
  have h1 : handleMouseEnter (⟨InteractionState.idle, none, none, n⟩ : PillM) =
      (⟨InteractionState.idle, some (n + HOVER_DELAY_MS), none, n⟩ : PillM) := by
    simp [handleMouseEnter]
  rw [h1, tickPill_idle_pending (n + HOVER_DELAY_MS) d n (by omega)]
  have h2 : handleMouseLeave
        (⟨InteractionState.idle, some (n + HOVER_DELAY_MS), none, n + d⟩ : PillM) =
      (⟨InteractionState.idle, none, none, n + d⟩ : PillM) := by
    simp [handleMouseLeave]
  rw [h2, tickPill_quiescent]

/-- Closed instance of enter_leave_within_delay_stays_idle: leave 40ms
after enter, observe 500ms later. -/
theorem enter_leave_within_delay_stays_idle_witness :
    (tickPill^[500] (handleMouseLeave
        (tickPill^[40] (handleMouseEnter pillIdleExample)))).interactionState =
      InteractionState.idle :=
  enter_leave_within_delay_stays_idle pillIdleExample (by decide) (by decide)
    (by decide) 40 (by decide) 500

/-- C7: pointerLeave always cancels the pending hover timer and never
changes the state itself; from hover it starts a 120ms exit timer, from
expanded a 360ms (3 times 120ms) one, and from boot or idle it starts no
timer; the exit callback collapses to idle exactly when the state at fire
time is still hover or expanded. -/
theorem pointerLeave_spec (m : PillM) :
    (handleMouseLeave m).hoverTimeout = none ∧
    (handleMouseLeave m).interactionState = m.interactionState ∧
    (m.interactionState = InteractionState.hover →
      (handleMouseLeave m).exitTimeout = some (m.now + EXIT_DELAY_MS)) ∧
    (m.interactionState = InteractionState.expanded →
      (handleMouseLeave m).exitTimeout = some (m.now + EXIT_DELAY_MS * 3)) ∧
    (m.interactionState = InteractionState.boot ∨
        m.interactionState = InteractionState.idle →
      (handleMouseLeave m).exitTimeout = m.exitTimeout) ∧
    (m.interactionState = InteractionState.hover ∨
        m.interactionState = InteractionState.expanded →
      (fireExitTimeout m).interactionState = InteractionState.idle) ∧
    (¬(m.interactionState = InteractionState.hover ∨
        m.interactionState = InteractionState.expanded) →
      (fireExitTimeout m).interactionState = m.interactionState) := by
  refine ⟨?_, ?_, ?_, ?_, ?_, ?_, ?_⟩
  · cases h : m.interactionState <;> simp [handleMouseLeave, h]
  · cases h : m.interactionState <;> simp [handleMouseLeave, h]
  · intro h; simp [handleMouseLeave, h]
  · intro h; simp [handleMouseLeave, h]
  · intro h; rcases h with h | h <;> simp [handleMouseLeave, h]
  · intro h; simp [fireExitTimeout, h]
  · intro h; simp [fireExitTimeout, h]

/-- Closed instance of pointerLeave_spec at hover, expanded and idle
states, including the exit callback collapsing an expanded pill. -/
theorem pointerLeave_spec_witness :
    (handleMouseLeave pillHoverExample).exitTimeout =
      some (pillHoverExample.now + EXIT_DELAY_MS) ∧
    (handleMouseLeave pointerEnterExpandedExample).exitTimeout =
      some (pointerEnterExpandedExample.now + EXIT_DELAY_MS * 3) ∧
    (handleMouseLeave pillIdleExample).exitTimeout =
      pillIdleExample.exitTimeout ∧
    (fireExitTimeout pointerEnterExpandedExample).interactionState =
      InteractionState.idle ∧
    (fireExitTimeout pillIdleExample).interactionState =
      pillIdleExample.interactionState := by
  refine ⟨(pointerLeave_spec pillHoverExample).2.2.1 (by decide),
    (pointerLeave_spec pointerEnterExpandedExample).2.2.2.1 (by decide),
    (pointerLeave_spec pillIdleExample).2.2.2.2.1 (by decide),
    (pointerLeave_spec pointerEnterExpandedExample).2.2.2.2.2.1 (by decide),
    (pointerLeave_spec pillIdleExample).2.2.2.2.2.2 (by decide)⟩

/-- SystemNotification from src/hooks/useNotifications.ts. -/
structure SystemNotification where
  id : Nat
  appName : String
  title : String
  body : String
  timestamp : Nat
deriving Repr, DecidableEq

/-- NotificationPhase from src/hooks/useNotifications.ts. -/
inductive NotificationPhase where
  | idle
  | incoming
  | absorbing
  | showing
deriving Repr, DecidableEq

/-- Which pending transition the phaseTimeoutRef slot currently holds:
the 2000ms incoming-to-absorbing callback or the nested 300ms
absorbing-to-showing callback. -/
inductive PhaseStep where
  | toAbsorbing
  | toShowing
deriving Repr, DecidableEq

/-- The choreographer state of useNotifications: the fetched list, the
toast payload, the phase, the pulse flag, the lastSeenIdRef, the two
pending timers (phaseTimeoutRef and newNotificationTimeoutRef, as
absolute fire times) and the clock.  latestTimeoutRef is omitted: the
source only ever clears it and never sets it. -/
structure ChoreoState where
  notifications : List SystemNotification
  latestNotification : Option SystemNotification
  notificationPhase : NotificationPhase
  isNewNotification : Bool
  lastSeenId : Nat
  phaseTimeout : Option (Nat × PhaseStep)
  newNotificationTimeout : Option Nat
  now : Nat
deriving Repr, DecidableEq

/-- The state-updating body of fetchNotifications on a successful fetch
(src/hooks/useNotifications.ts lines 87-137): a genuinely new newest id
(different from lastSeenId, which must itself be nonzero) starts the
choreography; lastSeenId always tracks the newest id; an empty list while
showing reverts to idle; the list is stored. -/
def processFetch (mapped : List SystemNotification) (s : ChoreoState) :
    ChoreoState :=
  let s1 :=
    match mapped with
    | [] => s
    | newest :: _ =>
        let s2 :=
          if newest.id ≠ s.lastSeenId ∧ s.lastSeenId ≠ 0 then
            { s with
                latestNotification := some newest,
                isNewNotification := true,
                notificationPhase := NotificationPhase.incoming,
                phaseTimeout := some (s.now + 2000, PhaseStep.toAbsorbing),
                newNotificationTimeout := some (s.now + 2500) }
          else s
        { s2 with lastSeenId := newest.id }
  let s3 :=
    if mapped = [] ∧ s1.notificationPhase = NotificationPhase.showing then
      { s1 with notificationPhase := NotificationPhase.idle }
    else s1
  { s3 with notifications := mapped }

/-- The phase timer callbacks (lines 113-121): at 2000ms enter absorbing
and schedule the 300ms step; at the 300ms step enter showing and clear
the toast payload. -/
def firePhaseStep (step : PhaseStep) (s : ChoreoState) : ChoreoState :=
  match step with
  | .toAbsorbing =>
      { s with
          notificationPhase := NotificationPhase.absorbing,
          phaseTimeout := some (s.now + 300, PhaseStep.toShowing) }
  | .toShowing =>
      { s with
          notificationPhase := NotificationPhase.showing,
          latestNotification := none,
          phaseTimeout := none }

/-- Advance the choreographer clock one millisecond and fire any due
timer callback (the phase timer, then the 2500ms pulse-reset timer of
lines 124-126; their fire times never coincide in the runs below). -/
def tickChoreo (s : ChoreoState) : ChoreoState :=
  let s1 := { s with now := s.now + 1 }
  let s2 :=
    match s1.phaseTimeout with
    | some (t, step) => if t ≤ s1.now then firePhaseStep step s1 else s1
    | none => s1
  match s2.newNotificationTimeout with
  | some t =>
      if t ≤ s2.now then
        { s2 with isNewNotification := false, newNotificationTimeout := none }
      else s2
  | none => s2

/-- clearLatest from src/hooks/useNotifications.ts (lines 163-172). -/
def clearLatest (s : ChoreoState) : ChoreoState :=
  let s1 := { s with latestNotification := none, phaseTimeout := none }
  if s1.notificationPhase = NotificationPhase.incoming ∨
      s1.notificationPhase = NotificationPhase.absorbing then
    { s1 with notificationPhase := NotificationPhase.showing }
  else s1

/-- The local state changes of dismissNotification
(src/hooks/useNotifications.ts lines 147-160); the backend invoke is an
external command. -/
def dismissNotification (id : Nat) (s : ChoreoState) : ChoreoState :=
  let updated := s.notifications.filter (fun n => !(n.id = id : Bool))
  let s1 :=
    { s with
        notifications := updated,
        notificationPhase :=
          if updated = [] then NotificationPhase.idle
          else s.notificationPhase }
  if s1.latestNotification.map SystemNotification.id = some id then
    { s1 with latestNotification := none }
  else s1

/-- The initial choreographer state (useState defaults, lastSeenIdRef 0). -/
def choreoInit : ChoreoState :=
  ⟨[], none, NotificationPhase.idle, false, 0, none, none, 0⟩

/-- State after the first-ever poll observes notification n1. -/
def choreoAfterFirst (n1 : SystemNotification) : ChoreoState :=
  processFetch [n1] choreoInit

/-- State after the next poll observes a new notification n2. -/
def choreoAfterSecond (n1 n2 : SystemNotification) : ChoreoState :=
  processFetch [n2] (choreoAfterFirst n1)

/-- Closed form of the choreographer run, k milliseconds after the
second poll started the choreography. -/
def choreoRunDesc (n2 : SystemNotification) (k : Nat) : ChoreoState :=
  ⟨[n2],
   if k < 2300 then some n2 else none,
   if k < 2000 then NotificationPhase.incoming
   else if k < 2300 then NotificationPhase.absorbing
   else NotificationPhase.showing,
   decide (k < 2500),
   n2.id,
   if k < 2000 then some (2000, PhaseStep.toAbsorbing)
   else if k < 2300 then some (2300, PhaseStep.toShowing)
   else none,
   if k < 2500 then some 2500 else none,
   k⟩

lemma choreoAfterSecond_eq (n1 n2 : SystemNotification) (h1 : n1.id ≠ 0)
    (h2 : n2.id ≠ n1.id) :
    choreoAfterSecond n1 n2 = choreoRunDesc n2 0 := by
  simp [choreoAfterSecond, choreoAfterFirst, choreoInit, processFetch,
    choreoRunDesc, h1, h2]

lemma choreoRun_eq (n1 n2 : SystemNotification) (h1 : n1.id ≠ 0)
    (h2 : n2.id ≠ n1.id) (k : Nat) :
    tickChoreo^[k] (choreoAfterSecond n1 n2) = choreoRunDesc n2 k := by
  induction k with
  | zero =>
      simpa using choreoAfterSecond_eq n1 n2 h1 h2
  | succ k ih =>
      rw [Function.iterate_succ_apply', ih]
      by_cases hA : k + 1 < 2000
      · simp [tickChoreo, choreoRunDesc,
          show k < 2000 by omega, show k < 2300 by omega,
          show k < 2500 by omega, show k + 1 < 2300 by omega,
          show k + 1 < 2500 by omega, show ¬(2000 ≤ k + 1) by omega,
          show ¬(2500 ≤ k + 1) by omega, hA]
      · by_cases hB : k = 1999
        · subst hB
          simp [tickChoreo, choreoRunDesc, firePhaseStep]
        · by_cases hC : k + 1 < 2300
          · simp [tickChoreo, choreoRunDesc,
              show ¬(k < 2000) by omega, show ¬(k + 1 < 2000) by omega,
              show k < 2300 by omega, show k < 2500 by omega,
              show k + 1 < 2500 by omega, show ¬(2300 ≤ k + 1) by omega,
              show ¬(2500 ≤ k + 1) by omega, hC]
          · by_cases hD : k = 2299
            · subst hD
              simp [tickChoreo, choreoRunDesc, firePhaseStep]
            · by_cases hE : k + 1 < 2500
              · simp [tickChoreo, choreoRunDesc,
                  show ¬(k < 2000) by omega, show ¬(k + 1 < 2000) by omega,
                  show ¬(k < 2300) by omega, show ¬(k + 1 < 2300) by omega,
                  show k < 2500 by omega, show ¬(2500 ≤ k + 1) by omega,
                  hE]
              · by_cases hF : k = 2499
                · subst hF
                  simp [tickChoreo, choreoRunDesc]
                · simp [tickChoreo, choreoRunDesc,
                    show ¬(k < 2000) by omega, show ¬(k + 1 < 2000) by omega,
                    show ¬(k < 2300) by omega, show ¬(k + 1 < 2300) by omega,
                    show ¬(k < 2500) by omega, show ¬(k + 1 < 2500) by omega]

/-- C3: with lastSeenId still 0, the first observed newest id starts no
choreography; on the next genuinely new id the phase becomes incoming
immediately with the toast payload set and the pulse flag on, absorbing
2000ms later, and showing 300ms after that with the toast payload
cleared; the pulse flag is on during the first 2500ms and off after. -/
theorem notification_choreography (n1 n2 : SystemNotification)
    (h1 : n1.id ≠ 0) (h2 : n2.id ≠ n1.id) :
    ((choreoAfterFirst n1).notificationPhase = NotificationPhase.idle ∧
     (choreoAfterFirst n1).latestNotification = none ∧
     (choreoAfterFirst n1).isNewNotification = false ∧
     (choreoAfterFirst n1).phaseTimeout = none ∧
     (choreoAfterFirst n1).newNotificationTimeout = none) ∧
    (choreoAfterSecond n1 n2).notificationPhase = NotificationPhase.incoming ∧
    (choreoAfterSecond n1 n2).latestNotification = some n2 ∧
    (choreoAfterSecond n1 n2).isNewNotification = true ∧
    (∀ k, (tickChoreo^[k] (choreoAfterSecond n1 n2)).notificationPhase =
      (if k < 2000 then NotificationPhase.incoming
       else if k < 2300 then NotificationPhase.absorbing
       else NotificationPhase.showing)) ∧
    (∀ k, (tickChoreo^[k] (choreoAfterSecond n1 n2)).latestNotification =
      (if k < 2300 then some n2 else none)) ∧
    (∀ k, (tickChoreo^[k] (choreoAfterSecond n1 n2)).isNewNotification =
      decide (k < 2500)) := by
  refine ⟨?_, ?_, ?_, ?_, ?_, ?_, ?_⟩
  · simp [choreoAfterFirst, choreoInit, processFetch]
  · rw [choreoAfterSecond_eq n1 n2 h1 h2]; rfl
  · rw [choreoAfterSecond_eq n1 n2 h1 h2]; rfl
  · rw [choreoAfterSecond_eq n1 n2 h1 h2]; rfl
  · intro k; rw [choreoRun_eq n1 n2 h1 h2 k]; rfl
  · intro k; rw [choreoRun_eq n1 n2 h1 h2 k]; rfl
  · intro k; rw [choreoRun_eq n1 n2 h1 h2 k]; rfl

/-- A first concrete notification. -/
def wNotif1 : SystemNotification := ⟨1, "App", "first", "", 0⟩

/-- A second concrete notification. -/
def wNotif2 : SystemNotification := ⟨2, "App", "second", "", 0⟩

/-- Closed instance of notification_choreography at the region
boundaries 1999/2000/2299/2300/2499/2500 milliseconds. -/
theorem notification_choreography_witness :
    (choreoAfterFirst wNotif1).notificationPhase = NotificationPhase.idle ∧
    (choreoAfterSecond wNotif1 wNotif2).notificationPhase =
      NotificationPhase.incoming ∧
    (tickChoreo^[1999] (choreoAfterSecond wNotif1 wNotif2)).notificationPhase =
      NotificationPhase.incoming ∧
    (tickChoreo^[2000] (choreoAfterSecond wNotif1 wNotif2)).notificationPhase =
      NotificationPhase.absorbing ∧
    (tickChoreo^[2300] (choreoAfterSecond wNotif1 wNotif2)).notificationPhase =
      NotificationPhase.showing ∧
    (tickChoreo^[2300] (choreoAfterSecond wNotif1 wNotif2)).latestNotification =
      none ∧
    (tickChoreo^[2499] (choreoAfterSecond wNotif1 wNotif2)).isNewNotification =
      true ∧
    (tickChoreo^[2500] (choreoAfterSecond wNotif1 wNotif2)).isNewNotification =
      false := by
  have h := notification_choreography wNotif1 wNotif2 (by decide) (by decide)
  refine ⟨h.1.1, h.2.1, ?_, ?_, ?_, ?_, ?_, ?_⟩
  · exact (h.2.2.2.2.1 1999).trans (by decide)
  · exact (h.2.2.2.2.1 2000).trans (by decide)
  · exact (h.2.2.2.2.1 2300).trans (by decide)
  · exact (h.2.2.2.2.2.1 2300).trans (by decide)
  · exact (h.2.2.2.2.2.2 2499).trans (by decide)
  · exact (h.2.2.2.2.2.2 2500).trans (by decide)

lemma dismiss_notifications_eq (id : Nat) (s : ChoreoState) :
    (dismissNotification id s).notifications =
      s.notifications.filter (fun n => !(n.id = id : Bool)) := by
  simp only [dismissNotification]
  split <;> rfl

lemma dismiss_phase_eq (id : Nat) (s : ChoreoState) :
    (dismissNotification id s).notificationPhase =
      (if s.notifications.filter (fun n => !(n.id = id : Bool)) = [] then
        NotificationPhase.idle
       else s.notificationPhase) := by
  simp only [dismissNotification]
  split <;> rfl

lemma dismiss_latest_eq (id : Nat) (s : ChoreoState) :
    (dismissNotification id s).latestNotification =
      (if s.latestNotification.map SystemNotification.id = some id then none
       else s.latestNotification) := by
  simp only [dismissNotification]
  split <;> rfl

/-- C10: dismissNotification removes the dismissed id from the list;
whenever the remaining list is empty the phase becomes idle regardless of
the phase at call time (and is untouched otherwise); the toast payload is
cleared exactly when its id equals the dismissed id. -/
theorem dismissNotification_spec (id : Nat) (s : ChoreoState) :
    (∀ n ∈ (dismissNotification id s).notifications, n.id ≠ id) ∧
    ((dismissNotification id s).notifications = [] →
      (dismissNotification id s).notificationPhase = NotificationPhase.idle) ∧
    ((dismissNotification id s).notifications ≠ [] →
      (dismissNotification id s).notificationPhase = s.notificationPhase) ∧
    (dismissNotification id s).latestNotification =
      (if s.latestNotification.map SystemNotification.id = some id then none
       else s.latestNotification) := by
  refine ⟨?_, ?_, ?_, ?_⟩
  · intro n hn
    rw [dismiss_notifications_eq] at hn
    simpa using (List.of_mem_filter hn)
  · intro hempty
    rw [dismiss_notifications_eq] at hempty
    rw [dismiss_phase_eq, if_pos hempty]
  · intro hne
    rw [dismiss_notifications_eq] at hne
    rw [dismiss_phase_eq, if_neg hne]
  · exact dismiss_latest_eq id s

/-- Closed instance of dismissNotification_spec: dismissing the only
notification while the phase is incoming and it is the toast payload. -/
theorem dismissNotification_spec_witness :
    (∀ n ∈ (dismissNotification 1
        ⟨[wNotif1], some wNotif1, NotificationPhase.incoming, true, 1,
          none, none, 0⟩).notifications, n.id ≠ 1) ∧
    (dismissNotification 1
        ⟨[wNotif1], some wNotif1, NotificationPhase.incoming, true, 1,
          none, none, 0⟩).notificationPhase = NotificationPhase.idle ∧
    (dismissNotification 1
        ⟨[wNotif1], some wNotif1, NotificationPhase.incoming, true, 1,
          none, none, 0⟩).latestNotification = none := by
  have h := dismissNotification_spec 1
    ⟨[wNotif1], some wNotif1, NotificationPhase.incoming, true, 1,
      none, none, 0⟩
  refine ⟨h.1, h.2.1 (by decide), ?_⟩
  rw [h.2.2.2]
  decide

/-- The shouldShow condition of the NotificationToast component: a toast
payload is present and the phase is incoming or absorbing (this is also
the mount condition used by the pill around the toast). -/
def toastShouldShow (latest : Option SystemNotification)
    (phase : NotificationPhase) : Bool :=
  latest.isSome &&
    (decide (phase = NotificationPhase.incoming) ||
      decide (phase = NotificationPhase.absorbing))

/-- The integrated system for the toast safety bound: the choreographer
hook plus the mounted NotificationToast effect state — the dependency
snapshot the effect last ran with, the 3000ms safety timeout and the
1800ms incoming-phase timeout, as absolute fire times. -/
structure ToastSystem where
  choreo : ChoreoState
  toastDeps : Option (Option SystemNotification × NotificationPhase)
  safetyTimeout : Option Nat
  toastPhaseTimeout : Option Nat
deriving Repr, DecidableEq

/-- Re-run the toast effect when its dependencies changed: the cleanup
cancels both timers, then the body schedules nothing when the toast is
hidden, and otherwise a 3000ms safety timeout plus, while the phase is
incoming, a 1800ms timeout (NotificationToast component, lines 102-123). -/
def reconcileToast (s : ToastSystem) : ToastSystem :=
  let deps := (s.choreo.latestNotification, s.choreo.notificationPhase)
  if s.toastDeps = some deps then s
  else
    let visible :=
      toastShouldShow s.choreo.latestNotification s.choreo.notificationPhase
    { s with
        toastDeps := some deps,
        safetyTimeout :=
          if visible = true then some (s.choreo.now + 3000) else none,
        toastPhaseTimeout :=
          if visible = true ∧
              s.choreo.notificationPhase = NotificationPhase.incoming then
            some (s.choreo.now + 1800)
          else none }

/-- Advance the integrated system one millisecond: fire due toast timers
(both call onDismiss, wired to clearLatest), fire the choreographer phase
timer unless its drop flag is set (modelling a dropped 2000ms or 300ms
timer), fire the 2500ms pulse-reset timer, then re-run the toast effect
if its dependencies changed. -/
def tickSystem (drop2000 drop300 : Bool) (s : ToastSystem) : ToastSystem :=
  let s1 := { s with choreo := { s.choreo with now := s.choreo.now + 1 } }
  let s2 :=
    match s1.toastPhaseTimeout with
    | some t =>
        if t ≤ s1.choreo.now then
          { s1 with toastPhaseTimeout := none, choreo := clearLatest s1.choreo }
        else s1
    | none => s1
  let s3 :=
    match s2.safetyTimeout with
    | some t =>
        if t ≤ s2.choreo.now then
          { s2 with safetyTimeout := none, choreo := clearLatest s2.choreo }
        else s2
    | none => s2
  let s4 :=
    match s3.choreo.phaseTimeout with
    | some (t, step) =>
        if t ≤ s3.choreo.now then
          match step with
          | PhaseStep.toAbsorbing =>
              if drop2000 = true then
                { s3 with choreo := { s3.choreo with phaseTimeout := none } }
              else { s3 with choreo := firePhaseStep .toAbsorbing s3.choreo }
          | PhaseStep.toShowing =>
              if drop300 = true then
                { s3 with choreo := { s3.choreo with phaseTimeout := none } }
              else { s3 with choreo := firePhaseStep .toShowing s3.choreo }
        else s3
    | none => s3
  let s5 :=
    match s4.choreo.newNotificationTimeout with
    | some t =>
        if t ≤ s4.choreo.now then
          { s4 with
              choreo :=
                { s4.choreo with
                    isNewNotification := false,
                    newNotificationTimeout := none } }
        else s4
    | none => s4
  reconcileToast s5

/-- The integrated system at the moment the choreography enters incoming
(time 0): before the second poll the toast effect had run hidden with
dependencies (none, idle) and no timers; the effect re-runs on entry. -/
def toastSystemStart (n1 n2 : SystemNotification) : ToastSystem :=
  reconcileToast
    ⟨choreoAfterSecond n1 n2, some (none, NotificationPhase.idle), none, none⟩

/-- Closed form of the integrated run, k milliseconds after incoming
entry: the toast's 1800ms timeout dismisses the toast (clearLatest skips
the phase to showing and cancels the choreographer phase timer), after
which only the 2500ms pulse reset remains. -/
def toastRunDesc (n2 : SystemNotification) (k : Nat) : ToastSystem :=
  if k < 1800 then
    ⟨⟨[n2], some n2, NotificationPhase.incoming, true, n2.id,
       some (2000, PhaseStep.toAbsorbing), some 2500, k⟩,
     some (some n2, NotificationPhase.incoming), some 3000, some 1800⟩
  else
    ⟨⟨[n2], none, NotificationPhase.showing, decide (k < 2500), n2.id,
       none, if k < 2500 then some 2500 else none, k⟩,
     some (none, NotificationPhase.showing), none, none⟩

lemma toastSystemStart_eq (n1 n2 : SystemNotification) (h1 : n1.id ≠ 0)
    (h2 : n2.id ≠ n1.id) :
    toastSystemStart n1 n2 = toastRunDesc n2 0 := by
  rw [toastSystemStart, choreoAfterSecond_eq n1 n2 h1 h2]
  simp [reconcileToast, toastShouldShow, choreoRunDesc, toastRunDesc]

lemma toastRun_eq (n1 n2 : SystemNotification) (h1 : n1.id ≠ 0)
    (h2 : n2.id ≠ n1.id) (d1 d2 : Bool) (k : Nat) :
    (tickSystem d1 d2)^[k] (toastSystemStart n1 n2) = toastRunDesc n2 k := by
  induction k with
  | zero => simpa using toastSystemStart_eq n1 n2 h1 h2
  | succ k ih =>
      rw [Function.iterate_succ_apply', ih]
      by_cases hA : k + 1 < 1800
      · simp [tickSystem, toastRunDesc, reconcileToast,
          show k < 1800 by omega, hA,
          show ¬(1800 ≤ k + 1) by omega, show ¬(3000 ≤ k + 1) by omega,
          show ¬(2000 ≤ k + 1) by omega, show ¬(2500 ≤ k + 1) by omega]
      · by_cases hB : k = 1799
        · subst hB
          simp [tickSystem, toastRunDesc, reconcileToast, clearLatest,
            toastShouldShow]
        · by_cases hC : k + 1 < 2500
          · simp [tickSystem, toastRunDesc, reconcileToast,
              show ¬(k < 1800) by omega, show ¬(k + 1 < 1800) by omega,
              show k < 2500 by omega, hC, show ¬(2500 ≤ k + 1) by omega]
          · by_cases hD : k = 2499
            · subst hD
              simp [tickSystem, toastRunDesc, reconcileToast]
            · simp [tickSystem, toastRunDesc, reconcileToast,
                show ¬(k < 1800) by omega, show ¬(k + 1 < 1800) by omega,
                show ¬(k < 2500) by omega, show ¬(k + 1 < 2500) by omega]

/-- C9: at incoming entry the mounted toast schedules a safety timeout of
3000ms (entry is at time 0), the toast is displayed; and for every choice
of whether the choreographer's 2000ms and 300ms phase timers fire or are
dropped, the toast is no longer displayed at any time from 3000ms on
(dismissal is in fact forced at 1800ms by the toast's incoming-phase
timeout calling clearLatest). -/
theorem toast_safety_deadline (n1 n2 : SystemNotification)
    (h1 : n1.id ≠ 0) (h2 : n2.id ≠ n1.id) (d1 d2 : Bool) :
    (toastSystemStart n1 n2).safetyTimeout = some 3000 ∧
    toastShouldShow (toastSystemStart n1 n2).choreo.latestNotification
      (toastSystemStart n1 n2).choreo.notificationPhase = true ∧
    ∀ k, 3000 ≤ k →
      toastShouldShow
        ((tickSystem d1 d2)^[k] (toastSystemStart n1 n2)).choreo.latestNotification
        ((tickSystem d1 d2)^[k] (toastSystemStart n1 n2)).choreo.notificationPhase =
      false := by
  refine ⟨?_, ?_, ?_⟩
  · rw [toastSystemStart_eq n1 n2 h1 h2]; rfl
  · rw [toastSystemStart_eq n1 n2 h1 h2]; rfl
  · intro k hk
    rw [toastRun_eq n1 n2 h1 h2 d1 d2 k]
    simp [toastRunDesc, toastShouldShow, show ¬(k < 1800) by omega]

/-- Closed instance of toast_safety_deadline: both phase timers dropped,
observed at 3000ms, and both firing, observed at 4000ms. -/
theorem toast_safety_deadline_witness :
    (toastSystemStart wNotif1 wNotif2).safetyTimeout = some 3000 ∧
    toastShouldShow
      ((tickSystem true true)^[3000] (toastSystemStart wNotif1 wNotif2)).choreo.latestNotification
      ((tickSystem true true)^[3000] (toastSystemStart wNotif1 wNotif2)).choreo.notificationPhase =
      false ∧
    toastShouldShow
      ((tickSystem false false)^[4000] (toastSystemStart wNotif1 wNotif2)).choreo.latestNotification
      ((tickSystem false false)^[4000] (toastSystemStart wNotif1 wNotif2)).choreo.notificationPhase =
      false := by
  refine ⟨(toast_safety_deadline wNotif1 wNotif2 (by decide) (by decide)
    true true).1, ?_, ?_⟩
  · exact (toast_safety_deadline wNotif1 wNotif2 (by decide) (by decide)
      true true).2.2 3000 (by decide)
  · exact (toast_safety_deadline wNotif1 wNotif2 (by decide) (by decide)
      false false).2.2 4000 (by decide)

end Pillar
